import Mathlib

/-!
Shallow embedding of the album-store HTTP service (`backend/main.py`).

The relational store is modelled as an explicit `DB` value threaded through
the handlers.  Python integers become `Int`, floating-point prices become
`Rat` (exact arithmetic over the numeric values the code manipulates), SQL
rows become structures, and each request handler becomes a pure function
from the store to a `HandlerResult` carrying the HTTP-level outcome, the new
store, and whether the database connection opened at handler entry was
closed by the time the handler returned (the `conn.close()` in the
`finally` blocks of the source).
-/

namespace AlbumStore

/-- A row of the `albuns` table (model `Album` in the source: `id`, `titulo`,
`cantor`, `quantidade`, `preco`). -/
structure Album where
  id : Nat
  titulo : String
  cantor : String
  quantidade : Int
  preco : Rat
deriving DecidableEq, Repr

/-- A row of the `vendas` table (`id`, `album_id`, `quantidade_vendida`,
`valor_venda`), as inserted by `vender_album`. -/
structure Venda where
  id : Nat
  album_id : Nat
  quantidade_vendida : Int
  valor_venda : Rat
deriving DecidableEq, Repr

/-- The request body of the create endpoint (model `AlbumBase` in the
source): all four fields required. -/
structure AlbumBase where
  titulo : String
  cantor : String
  quantidade : Int
  preco : Rat
deriving DecidableEq, Repr

/-- The request body of the PATCH endpoint (model `AtualizarAlbum` in the
source): every field optional, `none` meaning "not supplied". -/
structure AtualizarAlbum where
  titulo : Option String
  cantor : Option String
  quantidade : Option Int
  preco : Option Rat
deriving DecidableEq, Repr

/-- The relational store: both tables plus the serial-id counters the
database uses to generate primary keys. -/
structure DB where
  albuns : List Album
  vendas : List Venda
  nextAlbumId : Nat
  nextVendaId : Nat
deriving DecidableEq, Repr

/-- An `HTTPException(status_code, detail)` raised by a handler. -/
structure HTTPError where
  status_code : Nat
  detail : String
deriving DecidableEq, Repr

/-- The JSON payload of a successful handler response. -/
inductive Resp where
  | msg (m : String)
  | msgAlbum (m : String) (album : Album)
  | one (album : Album)
  | albumList (l : List Album)
  | vendaList (l : List Venda)
deriving DecidableEq, Repr

instance {ε α : Type} [DecidableEq ε] [DecidableEq α] :
    DecidableEq (Except ε α) := fun x y =>
  match x, y with
  | Except.ok a, Except.ok b =>
      if h : a = b then isTrue (by rw [h])
      else isFalse (by intro hc; cases hc; exact h rfl)
  | Except.error e, Except.error f =>
      if h : e = f then isTrue (by rw [h])
      else isFalse (by intro hc; cases hc; exact h rfl)
  | Except.ok _, Except.error _ => isFalse (by intro hc; cases hc)
  | Except.error _, Except.ok _ => isFalse (by intro hc; cases hc)

/-- What running one handler produces: the HTTP outcome (success payload or
raised `HTTPException`), the store after the handler, and whether the
connection opened at entry was closed on this exit path. -/
structure HandlerResult where
  response : Except HTTPError Resp
  db : DB
  connClosed : Bool
deriving DecidableEq, Repr

/-- SQL `LOWER`, modelled character by character (the same function as
`String.toLower`, written through the character list so that proofs can
evaluate it). -/
def sql_lower (s : String) : String := ⟨s.data.map Char.toLower⟩

/-- Function `album_existe`: `SELECT ... WHERE LOWER(titulo) = LOWER($1) AND
LOWER(cantor) = LOWER($2)` — case-insensitive existence test on the
(titulo, cantor) pair. -/
def album_existe (titulo cantor : String) (db : DB) : Bool :=
  db.albuns.any fun a =>
    sql_lower a.titulo == sql_lower titulo && sql_lower a.cantor == sql_lower cantor

/-- Lookup `SELECT * FROM albuns WHERE id = $1` followed by `fetchrow`: the first
row with the given id, if any. -/
def fetch_album (db : DB) (album_id : Nat) : Option Album :=
  db.albuns.find? fun a => a.id == album_id

/-- Handler of `POST /api/v1/albuns/` (`adicionar_album`).  Faithful to the
source: the `album_existe` check and the 400 it raises happen BEFORE the
`try`/`finally` that closes the connection, so on the conflict path the
connection opened at entry is left open (`connClosed = false`); the insert
path runs inside the `try` and closes it. -/
def adicionar_album (db : DB) (album : AlbumBase) : HandlerResult :=
  if album_existe album.titulo album.cantor db then
    ⟨Except.error ⟨400, "Album já existe."⟩, db, false⟩
  else
    ⟨Except.ok (Resp.msg "Album adicionado com sucesso!"),
     { albuns := db.albuns ++
         [⟨db.nextAlbumId, album.titulo, album.cantor, album.quantidade, album.preco⟩],
       vendas := db.vendas,
       nextAlbumId := db.nextAlbumId + 1,
       nextVendaId := db.nextVendaId }, true⟩

/-- Handler of `GET /api/v1/albuns/` (`listar_albuns`). -/
def listar_albuns (db : DB) : HandlerResult :=
  ⟨Except.ok (Resp.albumList db.albuns), db, true⟩

/-- Handler of `GET /api/v1/albuns/{id}` (`listar_album_por_id`). -/
def listar_album_por_id (db : DB) (album_id : Nat) : HandlerResult :=
  match fetch_album db album_id with
  | none => ⟨Except.error ⟨404, "Album não encontrado."⟩, db, true⟩
  | some album => ⟨Except.ok (Resp.one album), db, true⟩

/-- The row rewrite of `UPDATE albuns SET quantidade = $1 WHERE id = $2`:
every row with the given id gets the precomputed new stock. -/
def atualiza_estoque (album_id : Nat) (nova_quantidade : Int) (a : Album) : Album :=
  if a.id == album_id then { a with quantidade := nova_quantidade } else a

/-- Handler of `PUT /api/v1/albuns/{id}/vender/` (`vender_album`).  Looks up
the row, rejects with 404 if absent, with 400 if `quantidade < venda.quantidade`
fails — i.e. if stock is insufficient — otherwise writes
`quantidade = s - q` for every row with that id, appends one `vendas` row
with `valor_venda = preco * q`, and answers with the updated album.  All of
this runs inside the handler's `try`/`finally`, so the connection is closed
on every path. -/
def vender_album (db : DB) (album_id : Nat) (quantidade : Int) : HandlerResult :=
  match fetch_album db album_id with
  | none => ⟨Except.error ⟨404, "Album não encontrado."⟩, db, true⟩
  | some album =>
    if album.quantidade < quantidade then
      ⟨Except.error ⟨400, "Quantidade insuficiente no estoque."⟩, db, true⟩
    else
      let nova_quantidade := album.quantidade - quantidade
      ⟨Except.ok (Resp.msgAlbum "Venda realizada com sucesso!"
          { album with quantidade := nova_quantidade }),
       { albuns := db.albuns.map (atualiza_estoque album_id nova_quantidade),
         vendas := db.vendas ++
           [⟨db.nextVendaId, album_id, quantidade, album.preco * quantidade⟩],
         nextAlbumId := db.nextAlbumId,
         nextVendaId := db.nextVendaId + 1 }, true⟩

/-- The row rewrite of the PATCH handler's
`UPDATE ... SET campo = COALESCE($i, campo) WHERE id = $5`: on the matching
row each supplied field is overwritten, each unsupplied field keeps its
stored value, and the id is not in the SET list. -/
def coalesce_album (album_id : Nat) (p : AtualizarAlbum) (a : Album) : Album :=
  if a.id == album_id then
    { id := a.id,
      titulo := p.titulo.getD a.titulo,
      cantor := p.cantor.getD a.cantor,
      quantidade := p.quantidade.getD a.quantidade,
      preco := p.preco.getD a.preco }
  else a

/-- Handler of `PATCH /api/v1/albuns/{id}` (`atualizar_album`).  404 if the
id is absent; otherwise the COALESCE update. -/
def atualizar_album (db : DB) (album_id : Nat) (p : AtualizarAlbum) : HandlerResult :=
  match fetch_album db album_id with
  | none => ⟨Except.error ⟨404, "Album não encontrado."⟩, db, true⟩
  | some _ =>
    ⟨Except.ok (Resp.msg "Album atualizado com sucesso!"),
     { albuns := db.albuns.map (coalesce_album album_id p),
       vendas := db.vendas,
       nextAlbumId := db.nextAlbumId,
       nextVendaId := db.nextVendaId }, true⟩

/-- Handler of `DELETE /api/v1/albuns/{id}` (`remover_album`): 404 if absent,
otherwise `DELETE FROM albuns WHERE id = $1`. -/
def remover_album (db : DB) (album_id : Nat) : HandlerResult :=
  match fetch_album db album_id with
  | none => ⟨Except.error ⟨404, "Album não encontrado."⟩, db, true⟩
  | some _ =>
    ⟨Except.ok (Resp.msg "Album removido com sucesso!"),
     { albuns := db.albuns.filter fun a => !(a.id == album_id),
       vendas := db.vendas,
       nextAlbumId := db.nextAlbumId,
       nextVendaId := db.nextVendaId }, true⟩

/-- Handler of `DELETE /api/v1/albuns/` (`resetar_albuns`): runs the external
`init.sql` script.  The script is not part of the application code, so the
store it re-creates is a parameter `initDb` of the model. -/
def resetar_albuns (_db : DB) (initDb : DB) : HandlerResult :=
  ⟨Except.ok (Resp.msg "Banco de dados limpo com sucesso!"), initDb, true⟩

/-- Handler of `GET /api/v1/vendas/` (`listar_vendas`). -/
def listar_vendas (db : DB) : HandlerResult :=
  ⟨Except.ok (Resp.vendaList db.vendas), db, true⟩

/-- One inbound request, covering every route of the service. -/
inductive Req where
  | adicionar (album : AlbumBase)
  | listar
  | buscar (album_id : Nat)
  | vender (album_id : Nat) (quantidade : Int)
  | atualizar (album_id : Nat) (p : AtualizarAlbum)
  | remover (album_id : Nat)
  | resetar (initDb : DB)
  | listarVendas
deriving DecidableEq, Repr

/-- Dispatch of one request to its handler. -/
def handle (db : DB) : Req → HandlerResult
  | Req.adicionar album => adicionar_album db album
  | Req.listar => listar_albuns db
  | Req.buscar album_id => listar_album_por_id db album_id
  | Req.vender album_id q => vender_album db album_id q
  | Req.atualizar album_id p => atualizar_album db album_id p
  | Req.remover album_id => remover_album db album_id
  | Req.resetar initDb => resetar_albuns db initDb
  | Req.listarVendas => listar_vendas db

/-- The store after a sequence of requests. -/
def executar (db : DB) (reqs : List Req) : DB :=
  reqs.foldl (fun d r => (handle d r).db) db

/-- The store after a sequence of sell requests (album id, quantity). -/
def executar_vendas (db : DB) (ops : List (Nat × Int)) : DB :=
  ops.foldl (fun d op => (vender_album d op.1 op.2).db) db

/-- The read-and-check phase of `vender_album` (source: the SELECT by id,
the 404 test and the stock test): returns the row it captured when the
check passes, `none` when the handler would raise. -/
def vender_check (db : DB) (album_id : Nat) (quantidade : Int) : Option Album :=
  match fetch_album db album_id with
  | none => none
  | some album => if album.quantidade < quantidade then none else some album

/-- The write phase of `vender_album` (source: the UPDATE and the INSERT),
executed with the row captured by the check phase — the stored stock is
computed from that stale row, not re-read. -/
def vender_act (db : DB) (album_id : Nat) (album : Album) (quantidade : Int) : DB :=
  { albuns := db.albuns.map (atualiza_estoque album_id (album.quantidade - quantidade)),
    vendas := db.vendas ++
      [⟨db.nextVendaId, album_id, quantidade, album.preco * quantidade⟩],
    nextAlbumId := db.nextAlbumId,
    nextVendaId := db.nextVendaId + 1 }

/-- Interleaved execution of two concurrent sell requests in the schedule
check₁ · check₂ · act₁ · act₂ — both reads happen before either write,
a schedule the non-atomic handler allows under concurrent requests.
`some` of the final store when both checks pass, `none` otherwise. -/
def vendas_concorrentes (db : DB) (album_id : Nat) (q1 q2 : Int) : Option DB :=
  match vender_check db album_id q1, vender_check db album_id q2 with
  | some a1, some a2 =>
      some (vender_act (vender_act db album_id a1 q1) album_id a2 q2)
  | _, _ => none

/-- The case-insensitive (titulo, cantor) key of the uniqueness invariant. -/
def chave_album (a : Album) : String × String :=
  (sql_lower a.titulo, sql_lower a.cantor)

/-- The uniqueness invariant: no two stored albums share the same
(titulo, cantor) pair under case-insensitive comparison. -/
def chaves_distintas (l : List Album) : Prop :=
  l.Pairwise fun a b => chave_album a ≠ chave_album b

instance (l : List Album) : Decidable (chaves_distintas l) := by
  unfold chaves_distintas; infer_instance

/-- Requests other than the PATCH update and the script-driven reset. -/
def op_preserva_unicidade : Req → Bool
  | Req.atualizar _ _ => false
  | Req.resetar _ => false
  | _ => true

/-- Whether a request is the script-driven reset. -/
def eh_resetar : Req → Bool
  | Req.resetar _ => true
  | _ => false

/-- Whether a handler answered successfully (no `HTTPException`). -/
def resposta_ok (h : HandlerResult) : Bool :=
  match h.response with
  | Except.ok _ => true
  | Except.error _ => false

/-- Current stock of the album with the given id (0 when absent). -/
def estoque_de (db : DB) (album_id : Nat) : Int :=
  match fetch_album db album_id with
  | some a => a.quantidade
  | none => 0

/-- Total quantity sold against the given album id in a sales table. -/
def soma_vendida (l : List Venda) (album_id : Nat) : Int :=
  ((l.filter fun v => v.album_id == album_id).map Venda.quantidade_vendida).sum

/-- Total quantity sold against the given album id in the store. -/
def vendido_de (db : DB) (album_id : Nat) : Int :=
  soma_vendida db.vendas album_id

/-- A small store shared by several concrete checks below: two albums by
the same performer, no sales yet. -/
def dbMJ : DB :=
  ⟨[⟨1, "Thriller", "Michael Jackson", 5, 10⟩, ⟨2, "Bad", "Michael Jackson", 4, 8⟩],
   [], 3, 1⟩

/-! ## Claims about the sell operation -/

/-- Claim C1: for every album with stock `s` and every sell request of
quantity `q` with `q ≤ s`, the sell succeeds: the stored stock becomes
`s - q`, exactly one sale record is appended with value `preco * q`
referencing the album's id, and the response carries the updated album in
which every field other than `quantidade` keeps its pre-sale value. -/
theorem claim_C1_vender_sucesso (db : DB) (album_id : Nat) (q : Int) (album : Album)
    (hfind : fetch_album db album_id = some album)
    (hq : q ≤ album.quantidade) :
    vender_album db album_id q =
      ⟨Except.ok (Resp.msgAlbum "Venda realizada com sucesso!"
          { album with quantidade := album.quantidade - q }),
       { albuns := db.albuns.map (atualiza_estoque album_id (album.quantidade - q)),
         vendas := db.vendas ++ [⟨db.nextVendaId, album_id, q, album.preco * q⟩],
         nextAlbumId := db.nextAlbumId,
         nextVendaId := db.nextVendaId + 1 }, true⟩ := by
  unfold vender_album
  rw [hfind]
  simp [not_lt.mpr hq]

/-- Witness for C1: selling 2 of 5 copies at price 10 leaves stock 3 and
records one sale of value 20. -/
theorem claim_C1_witness :
    fetch_album ⟨[⟨1, "Thriller", "Michael Jackson", 5, 10⟩], [], 2, 1⟩ 1 =
      some ⟨1, "Thriller", "Michael Jackson", 5, 10⟩ ∧
    (2 : Int) ≤ 5 ∧
    vender_album ⟨[⟨1, "Thriller", "Michael Jackson", 5, 10⟩], [], 2, 1⟩ 1 2 =
      ⟨Except.ok (Resp.msgAlbum "Venda realizada com sucesso!"
          ⟨1, "Thriller", "Michael Jackson", 3, 10⟩),
       ⟨[⟨1, "Thriller", "Michael Jackson", 3, 10⟩], [⟨1, 1, 2, 20⟩], 2, 2⟩, true⟩ :=
  ⟨by decide, by decide, by
    rw [claim_C1_vender_sucesso ⟨[⟨1, "Thriller", "Michael Jackson", 5, 10⟩], [], 2, 1⟩
      1 2 ⟨1, "Thriller", "Michael Jackson", 5, 10⟩ (by decide) (by decide)]
    norm_num [List.map, atualiza_estoque]⟩

/-- Claim C2: a sell request of quantity `q > s` fails with the
insufficient-stock `HTTPException` (status 400) and leaves the store
untouched: the stock keeps its prior value and no sale row is inserted. -/
theorem claim_C2_vender_estoque_insuficiente (db : DB) (album_id : Nat) (q : Int) (album : Album)
    (hfind : fetch_album db album_id = some album)
    (hq : album.quantidade < q) :
    vender_album db album_id q =
      ⟨Except.error ⟨400, "Quantidade insuficiente no estoque."⟩, db, true⟩ := by
  unfold vender_album
  rw [hfind]
  simp [hq]

/-- Witness for C2: selling 6 of 5 copies fails with 400 and changes
nothing. -/
theorem claim_C2_witness :
    fetch_album ⟨[⟨1, "Thriller", "Michael Jackson", 5, 10⟩], [], 2, 1⟩ 1 =
      some ⟨1, "Thriller", "Michael Jackson", 5, 10⟩ ∧
    (5 : Int) < 6 ∧
    vender_album ⟨[⟨1, "Thriller", "Michael Jackson", 5, 10⟩], [], 2, 1⟩ 1 6 =
      ⟨Except.error ⟨400, "Quantidade insuficiente no estoque."⟩,
       ⟨[⟨1, "Thriller", "Michael Jackson", 5, 10⟩], [], 2, 1⟩, true⟩ :=
  ⟨by decide, by decide,
    claim_C2_vender_estoque_insuficiente ⟨[⟨1, "Thriller", "Michael Jackson", 5, 10⟩], [], 2, 1⟩
      1 6 ⟨1, "Thriller", "Michael Jackson", 5, 10⟩ (by decide) (by decide)⟩

/-! ## Claims about connection discipline and creation -/

/-- Claim C3 is a code bug, evaluated here at its failing input: posting a
duplicate (case-insensitively) makes `adicionar_album` raise its 400
conflict BEFORE entering the `try`/`finally`, so the connection opened at
handler entry is never closed on that exit path. -/
theorem claim_C3_conexao_nao_fechada :
    (adicionar_album ⟨[⟨1, "Thriller", "Michael Jackson", 5, 10⟩], [], 2, 1⟩
        ⟨"thriller", "michael jackson", 3, 8⟩).connClosed = false ∧
    (adicionar_album ⟨[⟨1, "Thriller", "Michael Jackson", 5, 10⟩], [], 2, 1⟩
        ⟨"thriller", "michael jackson", 3, 8⟩).response =
      Except.error ⟨400, "Album já existe."⟩ := by
  decide

/-- Function `album_existe` answers `true` exactly when some stored album matches the
request pair under case-insensitive comparison. -/
theorem album_existe_eq_true_iff (titulo cantor : String) (db : DB) :
    album_existe titulo cantor db = true ↔
      ∃ a ∈ db.albuns, sql_lower a.titulo = sql_lower titulo ∧
        sql_lower a.cantor = sql_lower cantor := by
  simp [album_existe, List.any_eq_true, Bool.and_eq_true, beq_iff_eq]

/-- Claim C5: when the store already holds an album whose title and
performer match the request's under case-insensitive comparison, creation
fails with the 400 conflict and inserts nothing; otherwise exactly one new
row is appended and the response is the fixed success message, which does
not carry the generated id. -/
theorem claim_C5_criar_album (db : DB) (album : AlbumBase) :
    ((∃ a ∈ db.albuns, sql_lower a.titulo = sql_lower album.titulo ∧
        sql_lower a.cantor = sql_lower album.cantor) →
      (adicionar_album db album).response = Except.error ⟨400, "Album já existe."⟩ ∧
      (adicionar_album db album).db = db)
    ∧ ((∀ a ∈ db.albuns, ¬(sql_lower a.titulo = sql_lower album.titulo ∧
        sql_lower a.cantor = sql_lower album.cantor)) →
      (adicionar_album db album).response = Except.ok (Resp.msg "Album adicionado com sucesso!") ∧
      (adicionar_album db album).db =
        { albuns := db.albuns ++
            [⟨db.nextAlbumId, album.titulo, album.cantor, album.quantidade, album.preco⟩],
          vendas := db.vendas,
          nextAlbumId := db.nextAlbumId + 1,
          nextVendaId := db.nextVendaId }) := by
  constructor
  · intro h
    unfold adicionar_album
    rw [if_pos ((album_existe_eq_true_iff album.titulo album.cantor db).mpr h)]
    exact ⟨rfl, rfl⟩
  · intro h
    unfold adicionar_album
    rw [if_neg fun hc => by
      obtain ⟨a, ha, h1, h2⟩ := (album_existe_eq_true_iff album.titulo album.cantor db).mp hc
      exact h a ha ⟨h1, h2⟩]
    exact ⟨rfl, rfl⟩

/-- Witness for C5, exercising both branches: a differently-cased duplicate
is rejected with 400 and no insert, and a fresh pair is appended as one new
row. -/
theorem claim_C5_witness :
    ((∃ a ∈ ([⟨1, "Thriller", "Michael Jackson", 5, 10⟩] : List Album),
        sql_lower a.titulo = sql_lower "tHRILLER" ∧
        sql_lower a.cantor = sql_lower "MICHAEL jackson") ∧
      (adicionar_album ⟨[⟨1, "Thriller", "Michael Jackson", 5, 10⟩], [], 2, 1⟩
          ⟨"tHRILLER", "MICHAEL jackson", 1, 9⟩).response =
        Except.error ⟨400, "Album já existe."⟩ ∧
      (adicionar_album ⟨[⟨1, "Thriller", "Michael Jackson", 5, 10⟩], [], 2, 1⟩
          ⟨"tHRILLER", "MICHAEL jackson", 1, 9⟩).db =
        ⟨[⟨1, "Thriller", "Michael Jackson", 5, 10⟩], [], 2, 1⟩)
    ∧ ((∀ a ∈ ([⟨1, "Thriller", "Michael Jackson", 5, 10⟩] : List Album),
        ¬(sql_lower a.titulo = sql_lower "Bad" ∧ sql_lower a.cantor = sql_lower "U2")) ∧
      (adicionar_album ⟨[⟨1, "Thriller", "Michael Jackson", 5, 10⟩], [], 2, 1⟩
          ⟨"Bad", "U2", 1, 9⟩).response = Except.ok (Resp.msg "Album adicionado com sucesso!") ∧
      (adicionar_album ⟨[⟨1, "Thriller", "Michael Jackson", 5, 10⟩], [], 2, 1⟩
          ⟨"Bad", "U2", 1, 9⟩).db =
        { albuns := [⟨1, "Thriller", "Michael Jackson", 5, 10⟩] ++ [⟨2, "Bad", "U2", 1, 9⟩],
          vendas := [],
          nextAlbumId := 2 + 1,
          nextVendaId := 1 }) :=
  ⟨⟨by decide,
    (claim_C5_criar_album ⟨[⟨1, "Thriller", "Michael Jackson", 5, 10⟩], [], 2, 1⟩
      ⟨"tHRILLER", "MICHAEL jackson", 1, 9⟩).1 (by decide)⟩,
   ⟨by decide,
    (claim_C5_criar_album ⟨[⟨1, "Thriller", "Michael Jackson", 5, 10⟩], [], 2, 1⟩
      ⟨"Bad", "U2", 1, 9⟩).2 (by decide)⟩⟩

/-! ## Claims about the update operation -/

/-- Looking a row up by id commutes with a per-row rewrite that keeps ids. -/
theorem find?_map_preserva_id (f : Album → Album) (hf : ∀ a, (f a).id = a.id)
    (l : List Album) (album_id : Nat) :
    (l.map f).find? (fun a => a.id == album_id) =
      (l.find? (fun a => a.id == album_id)).map f := by
  rw [List.find?_map]
  have hcomp : ((fun a : Album => a.id == album_id) ∘ f) =
      fun a : Album => a.id == album_id :=
    funext fun a => by simp [Function.comp, hf]
  rw [hcomp]

theorem coalesce_album_id (album_id : Nat) (p : AtualizarAlbum) (a : Album) :
    (coalesce_album album_id p a).id = a.id := by
  unfold coalesce_album; split <;> rfl

theorem atualiza_estoque_id (album_id : Nat) (n : Int) (a : Album) :
    (atualiza_estoque album_id n a).id = a.id := by
  unfold atualiza_estoque; split <;> rfl

/-- Claim C8: updating an existing album rewrites exactly the supplied
fields to the supplied values and keeps every unsupplied field of that row,
every other row, and the sales table identical; updating an absent id
fails with 404 and changes nothing. -/
theorem claim_C8_atualizacao_parcial (db : DB) (album_id : Nat) (p : AtualizarAlbum) :
    (∀ album, fetch_album db album_id = some album →
      (atualizar_album db album_id p).response =
          Except.ok (Resp.msg "Album atualizado com sucesso!") ∧
      fetch_album (atualizar_album db album_id p).db album_id =
        some ⟨album.id, p.titulo.getD album.titulo, p.cantor.getD album.cantor,
              p.quantidade.getD album.quantidade, p.preco.getD album.preco⟩ ∧
      (∀ a ∈ db.albuns, (a.id == album_id) = false →
        a ∈ (atualizar_album db album_id p).db.albuns) ∧
      (atualizar_album db album_id p).db.vendas = db.vendas)
    ∧ (fetch_album db album_id = none →
      atualizar_album db album_id p =
        ⟨Except.error ⟨404, "Album não encontrado."⟩, db, true⟩) := by
  constructor
  · intro album hfind
    have hfind0 : db.albuns.find? (fun a => a.id == album_id) = some album := hfind
    have hid := List.find?_some hfind0
    unfold atualizar_album
    rw [hfind]
    refine ⟨rfl, ?_, ?_, rfl⟩
    · show (db.albuns.map (coalesce_album album_id p)).find?
        (fun a => a.id == album_id) = _
      rw [find?_map_preserva_id (coalesce_album album_id p)
        (coalesce_album_id album_id p) db.albuns album_id]
      have hfind' : db.albuns.find? (fun a => a.id == album_id) = some album := hfind
      rw [hfind']
      show some (coalesce_album album_id p album) = _
      unfold coalesce_album
      rw [if_pos hid]
    · intro a ha haid
      have heq : coalesce_album album_id p a = a := by
        unfold coalesce_album
        rw [if_neg (by simp [haid])]
      exact heq ▸ List.mem_map_of_mem (coalesce_album album_id p) ha
  · intro hnone
    unfold atualizar_album
    rw [hnone]

/-- Witness for C8: supplying only a new title rewrites the title of row 1,
keeps its other fields, row 2 and the sales; updating id 99 is a 404
no-op. -/
theorem claim_C8_witness :
    (fetch_album dbMJ 1 = some ⟨1, "Thriller", "Michael Jackson", 5, 10⟩ ∧
      (atualizar_album dbMJ 1 ⟨some "Off the Wall", none, none, none⟩).response =
          Except.ok (Resp.msg "Album atualizado com sucesso!") ∧
      fetch_album (atualizar_album dbMJ 1 ⟨some "Off the Wall", none, none, none⟩).db 1 =
        some ⟨1, "Off the Wall", "Michael Jackson", 5, 10⟩ ∧
      (∀ a ∈ dbMJ.albuns, (a.id == 1) = false →
        a ∈ (atualizar_album dbMJ 1 ⟨some "Off the Wall", none, none, none⟩).db.albuns) ∧
      (atualizar_album dbMJ 1 ⟨some "Off the Wall", none, none, none⟩).db.vendas =
        dbMJ.vendas)
    ∧ (fetch_album dbMJ 99 = none ∧
      atualizar_album dbMJ 99 ⟨some "X", none, none, none⟩ =
        ⟨Except.error ⟨404, "Album não encontrado."⟩, dbMJ, true⟩) :=
  ⟨⟨rfl, (claim_C8_atualizacao_parcial dbMJ 1 ⟨some "Off the Wall", none, none, none⟩).1
      ⟨1, "Thriller", "Michael Jackson", 5, 10⟩ rfl⟩,
   ⟨rfl, (claim_C8_atualizacao_parcial dbMJ 99 ⟨some "X", none, none, none⟩).2 rfl⟩⟩

/-- Claim C10: an update request supplying none of the four optional fields
succeeds with the success message and leaves the store identical; and no
update, whatever fields it supplies, changes any album's id. -/
theorem claim_C10_atualizacao_vazia (db : DB) (album_id : Nat) (album : Album)
    (p : AtualizarAlbum) (hfind : fetch_album db album_id = some album) :
    (p = ⟨none, none, none, none⟩ →
      atualizar_album db album_id p =
        ⟨Except.ok (Resp.msg "Album atualizado com sucesso!"), db, true⟩)
    ∧ (atualizar_album db album_id p).db.albuns.map Album.id =
        db.albuns.map Album.id := by
  constructor
  · rintro rfl
    unfold atualizar_album
    rw [hfind]
    have h1 : ∀ a ∈ db.albuns,
        coalesce_album album_id ⟨none, none, none, none⟩ a = id a :=
      fun a _ => by unfold coalesce_album; split <;> rfl
    rw [List.map_congr_left h1, List.map_id]
  · unfold atualizar_album
    rw [hfind]
    show (db.albuns.map (coalesce_album album_id p)).map Album.id = _
    rw [List.map_map]
    exact List.map_congr_left fun a _ => by
      simp [Function.comp, coalesce_album_id]

/-- Witness for C10: the empty patch on row 1 answers success and leaves
the store untouched, and the ids are unchanged. -/
theorem claim_C10_witness :
    fetch_album dbMJ 1 = some ⟨1, "Thriller", "Michael Jackson", 5, 10⟩ ∧
    atualizar_album dbMJ 1 ⟨none, none, none, none⟩ =
      ⟨Except.ok (Resp.msg "Album atualizado com sucesso!"), dbMJ, true⟩ ∧
    (atualizar_album dbMJ 1 ⟨none, none, none, none⟩).db.albuns.map Album.id =
      dbMJ.albuns.map Album.id :=
  ⟨rfl,
   (claim_C10_atualizacao_vazia dbMJ 1 ⟨1, "Thriller", "Michael Jackson", 5, 10⟩
     ⟨none, none, none, none⟩ rfl).1 rfl,
   (claim_C10_atualizacao_vazia dbMJ 1 ⟨1, "Thriller", "Michael Jackson", 5, 10⟩
     ⟨none, none, none, none⟩ rfl).2⟩

/-! ## Claims about the uniqueness invariant -/

theorem chave_atualiza_estoque (album_id : Nat) (n : Int) (a : Album) :
    chave_album (atualiza_estoque album_id n a) = chave_album a := by
  unfold atualiza_estoque; split <;> rfl

theorem chaves_distintas_map (f : Album → Album)
    (hf : ∀ a, chave_album (f a) = chave_album a) (l : List Album)
    (h : chaves_distintas l) : chaves_distintas (l.map f) := by
  unfold chaves_distintas at h ⊢
  rw [List.pairwise_map]
  exact h.imp fun hab => by rw [hf, hf]; exact hab

theorem chaves_distintas_filter (p : Album → Bool) (l : List Album)
    (h : chaves_distintas l) : chaves_distintas (l.filter p) :=
  h.sublist (List.filter_sublist l)

theorem chaves_distintas_append (l : List Album) (x : Album)
    (h : chaves_distintas l) (hx : ∀ a ∈ l, chave_album a ≠ chave_album x) :
    chaves_distintas (l ++ [x]) := by
  unfold chaves_distintas at h ⊢
  rw [List.pairwise_append]
  exact ⟨h, List.pairwise_singleton _ _, fun a ha b hb => by
    rw [List.mem_singleton] at hb; subst hb; exact hx a ha⟩

/-- Every request other than the PATCH update (and the script-driven reset)
preserves the uniqueness invariant. -/
theorem handle_preserva_chaves (db : DB) (r : Req)
    (hr : op_preserva_unicidade r = true)
    (h : chaves_distintas db.albuns) :
    chaves_distintas (handle db r).db.albuns := by
  cases r with
  | adicionar album =>
    show chaves_distintas (adicionar_album db album).db.albuns
    unfold adicionar_album
    by_cases he : album_existe album.titulo album.cantor db = true
    · rw [if_pos he]; exact h
    · rw [if_neg he]
      refine chaves_distintas_append _ _ h ?_
      intro a ha hk
      exact he ((album_existe_eq_true_iff album.titulo album.cantor db).mpr
        ⟨a, ha, congrArg Prod.fst hk, congrArg Prod.snd hk⟩)
  | listar => exact h
  | buscar album_id =>
    show chaves_distintas (listar_album_por_id db album_id).db.albuns
    unfold listar_album_por_id
    split <;> exact h
  | vender album_id q =>
    show chaves_distintas (vender_album db album_id q).db.albuns
    unfold vender_album
    split
    · exact h
    · split
      · exact h
      · exact chaves_distintas_map _ (chave_atualiza_estoque album_id _) _ h
  | atualizar album_id p => exact Bool.noConfusion hr
  | remover album_id =>
    show chaves_distintas (remover_album db album_id).db.albuns
    unfold remover_album
    split
    · exact h
    · exact chaves_distintas_filter _ _ h
  | resetar initDb => exact Bool.noConfusion hr
  | listarVendas => exact h

/-- Counterexample to claim C4 as stated: `dbMJ` satisfies the uniqueness
invariant, yet one PATCH update (retitling album 2 to a differently-cased
copy of album 1's title) reaches a state violating it — the update path
performs no uniqueness re-check. -/
theorem claim_C4_counterexample :
    chaves_distintas dbMJ.albuns ∧
    ¬ chaves_distintas
        (handle dbMJ (Req.atualizar 2 ⟨some "tHRILLER", some "michael JACKSON",
          none, none⟩)).db.albuns := by
  constructor
  · decide
  · decide

/-- Amended claim C4: the uniqueness invariant holds in every state
reachable from a state satisfying it through any sequence of requests that
does not contain the PATCH update (creates, sells, deletes and reads);
the update performs no uniqueness re-check and can violate it. -/
theorem claim_C4_unicidade_preservada (reqs : List Req) (db : DB)
    (hops : ∀ r ∈ reqs, op_preserva_unicidade r = true)
    (h : chaves_distintas db.albuns) :
    chaves_distintas (executar db reqs).albuns := by
  induction reqs generalizing db with
  | nil => exact h
  | cons r rs ih =>
    exact ih (handle db r).db (fun x hx => hops x (List.mem_cons_of_mem r hx))
      (handle_preserva_chaves db r (hops r (List.mem_cons_self r rs)) h)

/-- Witness for the amended C4: a create, a sell and a delete, run in
sequence from `dbMJ`, keep all (titulo, cantor) keys pairwise distinct. -/
theorem claim_C4_witness :
    (∀ r ∈ [Req.adicionar ⟨"Bad", "U2", 3, 7⟩, Req.vender 1 2, Req.remover 2],
        op_preserva_unicidade r = true) ∧
    chaves_distintas dbMJ.albuns ∧
    chaves_distintas
      (executar dbMJ [Req.adicionar ⟨"Bad", "U2", 3, 7⟩, Req.vender 1 2,
        Req.remover 2]).albuns :=
  ⟨by decide, by decide,
   claim_C4_unicidade_preservada
     [Req.adicionar ⟨"Bad", "U2", 3, 7⟩, Req.vender 1 2, Req.remover 2]
     dbMJ (by decide) (by decide)⟩

/-! ## Claims about stock conservation and the sales log -/

theorem soma_vendida_append (l1 l2 : List Venda) (album_id : Nat) :
    soma_vendida (l1 ++ l2) album_id =
      soma_vendida l1 album_id + soma_vendida l2 album_id := by
  unfold soma_vendida
  rw [List.filter_append, List.map_append, List.sum_append]

/-- One sell request, whatever its id and quantity and whether it succeeds,
preserves `stock + quantity sold` for every album id. -/
theorem vender_preserva_conservacao (db : DB) (i : Nat) (q : Int) (album_id : Nat) :
    estoque_de (vender_album db i q).db album_id +
      vendido_de (vender_album db i q).db album_id =
      estoque_de db album_id + vendido_de db album_id := by
  unfold vender_album
  rcases hfa : fetch_album db i with _ | album
  · rfl
  · by_cases hlt : album.quantidade < q
    · simp only [if_pos hlt]
    · simp only [if_neg hlt]
      have hfa0 : db.albuns.find? (fun a => a.id == i) = some album := hfa
      have hid := List.find?_some hfa0
      unfold estoque_de vendido_de fetch_album
      show (match (db.albuns.map
          (atualiza_estoque i (album.quantidade - q))).find?
            (fun a => a.id == album_id) with
        | some a => a.quantidade
        | none => 0) +
        soma_vendida (db.vendas ++ [⟨db.nextVendaId, i, q, album.preco * q⟩])
          album_id = _
      rw [find?_map_preserva_id (atualiza_estoque i (album.quantidade - q))
            (atualiza_estoque_id i (album.quantidade - q)) db.albuns album_id,
          soma_vendida_append]
      by_cases hii : album_id = i
      · subst hii
        rw [hfa0]
        have hsingle :
            soma_vendida [⟨db.nextVendaId, album_id, q, album.preco * q⟩] album_id = q := by
          simp [soma_vendida, List.filter]
        rw [hsingle]
        show (atualiza_estoque album_id (album.quantidade - q) album).quantidade + _ = _
        unfold atualiza_estoque
        rw [if_pos hid]
        show album.quantidade - q + (soma_vendida db.vendas album_id + q) =
          album.quantidade + soma_vendida db.vendas album_id
        omega
      · have hne : (i == album_id) = false := by
          simp only [beq_eq_false_iff_ne, ne_eq]
          exact fun hc => hii hc.symm
        have hsingle :
            soma_vendida [⟨db.nextVendaId, i, q, album.preco * q⟩] album_id = 0 := by
          simp [soma_vendida, List.filter, hne]
        rw [hsingle]
        rcases hb : db.albuns.find? (fun a => a.id == album_id) with _ | b
        · simp only [hb, Option.map_none']
          omega
        · have hbid := List.find?_some hb
          have hbne : (b.id == i) = false := by
            simp only [beq_eq_false_iff_ne, ne_eq]
            have hbeq : b.id = album_id := by
              have h0 := hbid
              simp only [beq_iff_eq] at h0
              exact h0
            rw [hbeq]
            exact fun hc => hii hc
          simp only [hb, Option.map_some']
          show (atualiza_estoque i (album.quantidade - q) b).quantidade +
            (soma_vendida db.vendas album_id + 0) = b.quantidade +
              soma_vendida db.vendas album_id
          unfold atualiza_estoque
          rw [if_neg (by simp [hbne])]
          omega

/-- Claim C6: across any sequence of sell operations, the sum of an
album's current stock and of all sale quantities recorded against it is
conserved — every sell, successful or not, preserves this quantity for
every album id (no create or update runs in between). -/
theorem claim_C6_conservacao (ops : List (Nat × Int)) (db : DB) (album_id : Nat) :
    estoque_de (executar_vendas db ops) album_id +
      vendido_de (executar_vendas db ops) album_id =
      estoque_de db album_id + vendido_de db album_id := by
  induction ops generalizing db with
  | nil => rfl
  | cons op rest ih =>
    exact (ih (vender_album db op.1 op.2).db).trans
      (vender_preserva_conservacao db op.1 op.2 album_id)

/-- Counterexample to claim C7 as stated: the request quantity is not
validated, so selling quantity 0 from album 1 (stock 5) succeeds and
inserts a sale record whose quantity is 0 — not strictly positive. -/
theorem claim_C7_counterexample :
    resposta_ok (vender_album dbMJ 1 0) = true ∧
    (vender_album dbMJ 1 0).db.vendas.map Venda.quantidade_vendida = [0] := by
  constructor <;> decide

/-- Amended claim C7: no request other than the script-driven reset (whose
effect is the external script's, not the handler's) mutates or deletes an
existing sale record — the sales table only ever grows by appended rows —
and each appended row's value equals the album's unit price at sale time
times the recorded quantity, which is at most the stock at sale time but
is not guaranteed strictly positive (the request quantity is
unvalidated). -/
theorem claim_C7_vendas_imutaveis (db : DB) (r : Req) (hr : eh_resetar r = false) :
    ∃ novas, (handle db r).db.vendas = db.vendas ++ novas ∧
      ∀ v ∈ novas, ∃ album, fetch_album db v.album_id = some album ∧
        v.valor_venda = album.preco * v.quantidade_vendida ∧
        v.quantidade_vendida ≤ album.quantidade := by
  cases r with
  | adicionar album =>
    refine ⟨[], ?_, by simp⟩
    show (adicionar_album db album).db.vendas = _
    unfold adicionar_album
    split <;> simp
  | listar => exact ⟨[], by simp [handle, listar_albuns], by simp⟩
  | buscar album_id =>
    refine ⟨[], ?_, by simp⟩
    show (listar_album_por_id db album_id).db.vendas = _
    unfold listar_album_por_id
    split <;> simp
  | vender album_id q =>
    show ∃ novas, (vender_album db album_id q).db.vendas = _ ∧ _
    unfold vender_album
    rcases hfa : fetch_album db album_id with _ | album
    · exact ⟨[], by simp, by simp⟩
    · by_cases hlt : album.quantidade < q
      · refine ⟨[], ?_, by simp⟩
        simp [hlt]
      · refine ⟨[⟨db.nextVendaId, album_id, q, album.preco * q⟩], ?_, ?_⟩
        · simp [hlt]
        · intro v hv
          rw [List.mem_singleton] at hv
          subst hv
          exact ⟨album, hfa, rfl, not_lt.mp hlt⟩
  | atualizar album_id p =>
    refine ⟨[], ?_, by simp⟩
    show (atualizar_album db album_id p).db.vendas = _
    unfold atualizar_album
    split <;> simp
  | remover album_id =>
    refine ⟨[], ?_, by simp⟩
    show (remover_album db album_id).db.vendas = _
    unfold remover_album
    split <;> simp
  | resetar initDb => exact Bool.noConfusion hr
  | listarVendas => exact ⟨[], by simp [handle, listar_vendas], by simp⟩

/-- Witness for the amended C7: a concrete sell appends records that all
carry value = price × quantity with quantity within stock. -/
theorem claim_C7_witness :
    eh_resetar (Req.vender 1 2) = false ∧
    (∃ novas, (handle dbMJ (Req.vender 1 2)).db.vendas = dbMJ.vendas ++ novas ∧
      ∀ v ∈ novas, ∃ album, fetch_album dbMJ v.album_id = some album ∧
        v.valor_venda = album.preco * v.quantidade_vendida ∧
        v.quantidade_vendida ≤ album.quantidade) :=
  ⟨rfl, claim_C7_vendas_imutaveis dbMJ (Req.vender 1 2) rfl⟩

/-! ## Claims about concurrent sells -/

/-- The `vender_check`/`vender_act` split is exactly the sequential
handler: when the check passes, the handler's store is the act's store on
the captured row. -/
theorem vender_album_fases (db : DB) (album_id : Nat) (q : Int) (album : Album)
    (h : vender_check db album_id q = some album) :
    (vender_album db album_id q).db = vender_act db album_id album q := by
  unfold vender_check at h
  unfold vender_album
  rcases hfa : fetch_album db album_id with _ | b
  · rw [hfa] at h
    exact Option.noConfusion h
  · rw [hfa] at h
    by_cases hlt : b.quantidade < q
    · simp only [if_pos hlt] at h
      exact Option.noConfusion h
    · simp only [if_neg hlt] at h
      obtain rfl : b = album := Option.some.inj h
      simp only [if_neg hlt]
      rfl

/-- Counterexample to claim C9 as stated: with album 1 of `dbMJ` at stock
5, two concurrent sells of quantity 5 both pass the stock check before
either write (schedule check₁·check₂·act₁·act₂, allowed by the
non-atomic handler), so BOTH succeed: the interleaved run completes and
appends two sale records of quantity 5 each. -/
theorem claim_C9_counterexample :
    (vendas_concorrentes dbMJ 1 5 5).isSome = true ∧
    Option.map (fun d => d.vendas.map Venda.quantidade_vendida)
      (vendas_concorrentes dbMJ 1 5 5) = some [5, 5] := by
  constructor <;> decide

/-- Amended claim C9: two concurrent sells, each of a quantity within the
stock both reads saw, CAN both succeed under the non-atomic check-then-act
schedule: both sale rows are appended (q1 + q2 sold in total), while the
final stock is the second writer's stale value s − q2 — never negative,
but not accounting for the first sale. -/
theorem claim_C9_vendas_concorrentes (db : DB) (album_id : Nat) (album : Album)
    (q1 q2 : Int) (hfind : fetch_album db album_id = some album)
    (h1 : q1 ≤ album.quantidade) (h2 : q2 ≤ album.quantidade) :
    vendas_concorrentes db album_id q1 q2 =
      some (vender_act (vender_act db album_id album q1) album_id album q2) ∧
    estoque_de (vender_act (vender_act db album_id album q1) album_id album q2)
        album_id = album.quantidade - q2 ∧
    0 ≤ album.quantidade - q2 ∧
    soma_vendida
        (vender_act (vender_act db album_id album q1) album_id album q2).vendas
        album_id = soma_vendida db.vendas album_id + q1 + q2 := by
  have hfind0 : db.albuns.find? (fun a => a.id == album_id) = some album := hfind
  have hid := List.find?_some hfind0
  have hcheck1 : vender_check db album_id q1 = some album := by
    unfold vender_check
    simp only [hfind, if_neg (not_lt.mpr h1)]
  have hcheck2 : vender_check db album_id q2 = some album := by
    unfold vender_check
    simp only [hfind, if_neg (not_lt.mpr h2)]
  refine ⟨?_, ?_, by omega, ?_⟩
  · unfold vendas_concorrentes
    rw [hcheck1, hcheck2]
  · unfold vender_act estoque_de fetch_album
    show (match ((db.albuns.map
        (atualiza_estoque album_id (album.quantidade - q1))).map
          (atualiza_estoque album_id (album.quantidade - q2))).find?
            (fun a => a.id == album_id) with
      | some a => a.quantidade
      | none => 0) = album.quantidade - q2
    rw [find?_map_preserva_id (atualiza_estoque album_id (album.quantidade - q2))
          (atualiza_estoque_id album_id (album.quantidade - q2)) _ album_id,
        find?_map_preserva_id (atualiza_estoque album_id (album.quantidade - q1))
          (atualiza_estoque_id album_id (album.quantidade - q1)) db.albuns album_id,
        hfind0]
    simp [atualiza_estoque, hid]
  · show soma_vendida
        ((db.vendas ++ [⟨db.nextVendaId, album_id, q1, album.preco * q1⟩]) ++
          [⟨db.nextVendaId + 1, album_id, q2, album.preco * q2⟩]) album_id = _
    rw [soma_vendida_append, soma_vendida_append]
    have e1 : soma_vendida
        [⟨db.nextVendaId, album_id, q1, album.preco * q1⟩] album_id = q1 := by
      simp [soma_vendida, List.filter]
    have e2 : soma_vendida
        [⟨db.nextVendaId + 1, album_id, q2, album.preco * q2⟩] album_id = q2 := by
      simp [soma_vendida, List.filter]
    rw [e1, e2]

/-- Witness for the amended C9: both concurrent sells of 5 against stock 5
succeed; the final stock is 0 and 10 units are recorded as sold. -/
theorem claim_C9_witness :
    fetch_album dbMJ 1 = some ⟨1, "Thriller", "Michael Jackson", 5, 10⟩ ∧
    (5 : Int) ≤ 5 ∧ (5 : Int) ≤ 5 ∧
    (vendas_concorrentes dbMJ 1 5 5 =
      some (vender_act (vender_act dbMJ 1 ⟨1, "Thriller", "Michael Jackson", 5, 10⟩ 5)
        1 ⟨1, "Thriller", "Michael Jackson", 5, 10⟩ 5) ∧
     estoque_de (vender_act (vender_act dbMJ 1 ⟨1, "Thriller", "Michael Jackson", 5, 10⟩ 5)
        1 ⟨1, "Thriller", "Michael Jackson", 5, 10⟩ 5) 1 = 5 - 5 ∧
     (0 : Int) ≤ 5 - 5 ∧
     soma_vendida (vender_act (vender_act dbMJ 1
        ⟨1, "Thriller", "Michael Jackson", 5, 10⟩ 5)
        1 ⟨1, "Thriller", "Michael Jackson", 5, 10⟩ 5).vendas 1 =
       soma_vendida dbMJ.vendas 1 + 5 + 5) :=
  ⟨rfl, by decide, by decide,
   claim_C9_vendas_concorrentes dbMJ 1 ⟨1, "Thriller", "Michael Jackson", 5, 10⟩ 5 5
     rfl (by decide) (by decide)⟩

end AlbumStore
